import Mathlib

/-!
Shallow embedding of `data_pipeline.py` (class `ProductionDataPipeline`):
the acquisition-and-validation pipeline for financial time-series data.

Tables (pandas DataFrames) are modelled as a list of column names plus a
list of rows; each row is a timestamp together with one cell per column.
A missing cell (pandas `NaN`) is `none`.  Numeric values are rationals.
External network calls (`yf.download`, FRED HTTP requests) are modelled as
capabilities held in an `Env` record: each call site is an independent
oracle supplied by the environment.
-/

set_option maxRecDepth 4000

/- `Rat.inv`, `Rat.mul`, `Rat.add` and `Rat.sub` are `@[irreducible]` in the
library, which blocks kernel evaluation of concrete rational arithmetic by
`decide`; restore the default reducibility so concrete tables evaluate. -/
set_option allowUnsafeReducibility true
attribute [semireducible] Rat.inv Rat.mul Rat.add Rat.sub

namespace DataPipeline

/-- A cell of a table: `none` models a pandas `NaN` / missing value. -/
abbrev Cell := Option ℚ

/-- A pandas `DataFrame`: named columns and timestamp-indexed rows.
Each row carries its timestamp (in days) and one cell per column. -/
structure DataFrame where
  cols : List String
  rows : List (Int × List Cell)
deriving DecidableEq

/-- Python `len(data)`: the number of rows. -/
def DataFrame.len (d : DataFrame) : Nat := d.rows.length

/-- Pandas `data.empty`: true when either axis has length zero. -/
def DataFrame.isEmpty (d : DataFrame) : Bool := d.rows.isEmpty || d.cols.isEmpty

/-- Pandas `data.isnull().sum().sum()`: total count of missing cells. -/
def DataFrame.missingCount (d : DataFrame) : Nat :=
  (d.rows.map (fun r => r.2.countP (fun c => c.isNone))).sum

/-- The fraction `data.isnull().sum().sum() / (len(data) * len(data.columns))`. -/
def DataFrame.missingFraction (d : DataFrame) : ℚ :=
  (d.missingCount : ℚ) / ((d.len : ℚ) * (d.cols.length : ℚ))

/-- Pandas `data[name]`: column lookup, `none` when the column is absent
(a pandas `KeyError`). -/
def DataFrame.column (d : DataFrame) (name : String) : Option (List Cell) :=
  (d.cols.findIdx? (fun c => c == name)).map
    (fun i => d.rows.map (fun r => r.2.getD i none))

/-- Pandas `data.dropna()`: drop every row containing a missing cell. -/
def DataFrame.dropna (d : DataFrame) : DataFrame :=
  { cols := d.cols, rows := d.rows.filter (fun r => r.2.all (fun c => c.isSome)) }

/-- Timestamp of the last row (`data.index[-1]`); `0` for an empty table
(the code only reads it on non-empty tables). -/
def DataFrame.lastTimestamp (d : DataFrame) : Int :=
  ((d.rows.getLast?).map Prod.fst).getD 0

/-- The age `(datetime.now() - latest_date).days`. -/
def daysOld (d : DataFrame) (now : Int) : Int := now - d.lastTimestamp

/-- Pandas `series.pct_change().dropna()`: day-over-day fractional changes,
with the first (undefined) change dropped. -/
def pctChange : List ℚ → List ℚ
  | [] => []
  | [_] => []
  | a :: b :: rest => ((b - a) / a) :: pctChange (b :: rest)

/-- The count `(abs(returns) > 0.5).sum()`: number of extreme day-over-day moves. -/
def extremeMovesCount (closes : List ℚ) : Nat :=
  (pctChange closes).countP (fun r => decide (|r| > 1/2))

/-- The test `extreme_moves > len(returns) * 0.02`: the extreme-move circuit breaker. -/
def suspicious (closes : List ℚ) : Bool :=
  decide ((extremeMovesCount closes : ℚ) > ((pctChange closes).length : ℚ) * (2/100))

/-- The distinct rejection branches of `_validate_data_quality`
(each corresponds to one `return False` with its printed reason). -/
inductive RejectReason where
  | noData
  | insufficientObservations (count : Nat)
  | excessiveMissingData (fraction : ℚ)
  | noValidCloses
  | invalidPrice
  | suspiciousVolatility
deriving DecidableEq

/-- Result of `_validate_data_quality`: the returned boolean, with the
rejection reason (resp. the staleness warning) attached. -/
inductive Verdict where
  | reject (reason : RejectReason)
  | accept (staleWarning : Bool)
deriving DecidableEq

/-- The boolean actually returned by `_validate_data_quality`. -/
def Verdict.toBool : Verdict → Bool
  | .reject _ => false
  | .accept _ => true

/-- Model of `_validate_data_quality(self, data, ticker)` (lines 213-261):
the data-quality gate.  `now` models `datetime.now()`; the ticker is used
only in log messages. -/
def validateDataQuality (data : Option DataFrame) (now : Int) (_ticker : String) : Verdict :=
  match data with
  | none => .reject .noData
  | some d =>
    if d.isEmpty then .reject .noData
    else if d.len < 20 then .reject (.insufficientObservations d.len)
    else if d.missingFraction > 1/10 then .reject (.excessiveMissingData d.missingFraction)
    else
      match d.column "Close" with
      | some col =>
        let closes := col.filterMap id
        if closes.isEmpty then .reject .noValidCloses
        else if closes.any (fun c => decide (c ≤ 0)) then .reject .invalidPrice
        else if suspicious closes then .reject .suspiciousVolatility
        else .accept (decide (daysOld d now > 10))
      | none => .accept (decide (daysOld d now > 10))

/-- The external-call capabilities and configuration of a
`ProductionDataPipeline` instance.  Each field models one distinct call
site to the outside world:
* `download t days k` — result of the `k`-th `yf.download(ticker, start, end)`
  attempt inside `_fetch_from_yfinance` for ticker `t` and a lookback of
  `days` days;
* `irx` — `yf.download('^IRX', period='5d')` inside
  `get_real_time_risk_free_rate`;
* `fred sid limit` — the HTTP round trip of `_fetch_from_fred` for series
  `sid`: either a transport/HTTP error or the list of observation values in
  the returned order, with the provider's `'.'` missing sentinel as `none`;
* `yfProbe` — `yf.download('AAPL', period='5d')` inside
  `system_health_check`;
* `now` — `datetime.now()` (in days). -/
structure Env where
  fredKey : Option String
  alphaVantageKey : Option String
  download : String → Nat → Nat → Except String DataFrame
  irx : Except String DataFrame
  fred : String → Nat → Except String (List Cell)
  yfProbe : Except String DataFrame
  now : Int

/-- The `period_days` lookup (lines 70-74): unrecognized periods default
to 365. -/
def periodDays (period : String) : Nat :=
  if period = "1mo" then 30
  else if period = "3mo" then 90
  else if period = "6mo" then 180
  else if period = "1y" then 365
  else if period = "2y" then 730
  else if period = "5y" then 1825
  else 365

/-- One iteration of the retry loop of `_fetch_from_yfinance` (the `try`
block, lines 80-104): download, empty check, row-wise `dropna`, minimum-rows
check.  Any raised `ValueError` is an `error` outcome, caught by the loop. -/
def attemptOutcome (env : Env) (ticker : String) (days k : Nat) : Except String DataFrame :=
  match env.download ticker days k with
  | .error e => .error e
  | .ok stockData =>
    if stockData.isEmpty then .error ("No data returned for " ++ ticker)
    else
      let cleaned := stockData.dropna
      if cleaned.len < 20 then
        .error ("Insufficient data points for " ++ ticker ++ ": " ++ toString cleaned.len)
      else .ok cleaned

/-- Model of `_fetch_from_yfinance(self, ticker, period)` (lines 65-111): the retry
loop with `max_retries = 3`; on the last attempt the caught exception is
re-raised (`raise e`). -/
def fetchFromYfinance (env : Env) (ticker period : String) : Except String DataFrame :=
  let days := periodDays period
  match attemptOutcome env ticker days 0 with
  | .ok d => .ok d
  | .error _ =>
    match attemptOutcome env ticker days 1 with
    | .ok d => .ok d
    | .error _ => attemptOutcome env ticker days 2

/-- Python `dict` assignment `all_data[ticker] = data`: overwrite when the key is
present, append otherwise. -/
def dictInsert (m : List (String × DataFrame)) (k : String) (v : DataFrame) :
    List (String × DataFrame) :=
  if m.any (fun p => p.1 == k) then m.map (fun p => if p.1 == k then (k, v) else p)
  else m ++ [(k, v)]

/-- The body of the per-ticker loop of `fetch_real_time_stock_data`
(lines 42-55): a fetch failure or (when validating) a rejected verdict
records the ticker as failed; otherwise the table is stored. -/
def processTicker (env : Env) (period : String) (validate : Bool)
    (acc : List (String × DataFrame) × List String) (ticker : String) :
    List (String × DataFrame) × List String :=
  match fetchFromYfinance env ticker period with
  | .error _ => (acc.1, acc.2 ++ [ticker])
  | .ok data =>
    if validate && !(validateDataQuality (some data) env.now ticker).toBool
    then (acc.1, acc.2 ++ [ticker])
    else (dictInsert acc.1 ticker data, acc.2)

/-- The `isinstance(tickers, str)` normalisation (lines 34-35): a bare string
becomes a one-element list. -/
def normalizeTickers (tickers : String ⊕ List String) : List String :=
  match tickers with
  | .inl s => [s]
  | .inr l => l

/-- The final values of the `all_data` / `failed_tickers` loop variables of
`fetch_real_time_stock_data` (lines 39-55): `all_data` is a `dict`, modelled
as an insertion-ordered association list. -/
def batchLoopState (env : Env) (tickers : String ⊕ List String)
    (period : String) (validate : Bool) :
    List (String × DataFrame) × List String :=
  (normalizeTickers tickers).foldl (processTicker env period validate) ([], [])

/-- Model of `fetch_real_time_stock_data(self, tickers, period='1y', validate=True)`
(lines 29-63): raises when `all_data` is empty, otherwise returns `all_data`
(line 63) — the Python `return` yields the mapping only; the failed tickers
are reported in the warning print at lines 60-61, see `failedTickers`. -/
def fetchRealTimeStockData (env : Env) (tickers : String ⊕ List String)
    (period : String) (validate : Bool) :
    Except String (List (String × DataFrame)) :=
  let result := batchLoopState env tickers period validate
  if result.1.isEmpty then .error "CRITICAL: No data could be fetched for any ticker"
  else .ok result.1

/-- The `failed_tickers` list accumulated by the loop and reported in the
warning print of `fetch_real_time_stock_data` (lines 40, 55, 60-61). -/
def failedTickers (env : Env) (tickers : String ⊕ List String)
    (period : String) (validate : Bool) : List String :=
  (batchLoopState env tickers period validate).2

/-- Whether one ticker is accepted by the loop body of
`fetch_real_time_stock_data`: the fetch must succeed and, when validation is
on, the quality gate must accept. -/
def tickerAccepts (env : Env) (period : String) (validate : Bool) (ticker : String) : Bool :=
  match fetchFromYfinance env ticker period with
  | .error _ => false
  | .ok data => !(validate && !(validateDataQuality (some data) env.now ticker).toBool)

/-- The `all_data` entry an accepted ticker contributes. -/
def acceptedEntry (env : Env) (period : String) (ticker : String) :
    Option (String × DataFrame) :=
  match fetchFromYfinance env ticker period with
  | .error _ => none
  | .ok data => some (ticker, data)

/-- Whether the closing-price section of `_validate_data_quality`
(lines 232-250) passes: vacuously true when there is no `Close` column. -/
def closeChecksPass (d : DataFrame) : Bool :=
  match d.column "Close" with
  | none => true
  | some col =>
    let closes := col.filterMap id
    !closes.isEmpty && !(closes.any (fun c => decide (c ≤ 0))) && !suspicious closes

/-- Model of `_fetch_from_fred(self, series_id, limit=10)` (lines 186-211): requires
a credential, performs the HTTP call, and returns the first observation that
is not the `'.'` missing sentinel (`None` when all are missing). -/
def fetchFromFred (env : Env) (seriesId : String) (limit : Nat := 10) :
    Except String (Option ℚ) :=
  if env.fredKey.isNone then .error "FRED API key required"
  else
    match env.fred seriesId limit with
    | .error e => .error e
    | .ok observations => .ok (observations.findSome? id)

/-- Method 1 / Method 3 of `get_real_time_risk_free_rate` (lines 120-128 and
141-149): guarded by the credential, any raised error is caught, and the
value is used whenever it is not `None` (no NaN or positivity check). -/
def tryFredMethod (env : Env) (seriesId : String) : Option ℚ :=
  if env.fredKey.isSome then
    match fetchFromFred env seriesId with
    | .ok (some v) => some v
    | _ => none
  else none

/-- Method 2 of `get_real_time_risk_free_rate` (lines 130-139): Yahoo `^IRX`;
the last close is used only when present (not NaN) and strictly positive;
any raised error (including a missing `Close` column) is caught. -/
def tryIrxMethod (env : Env) : Option ℚ :=
  match env.irx with
  | .error _ => none
  | .ok irxData =>
    if !irxData.isEmpty then
      match irxData.column "Close" with
      | none => none
      | some col =>
        match col.getLast? with
        | some (some latestRate) => if latestRate > 0 then some latestRate else none
        | _ => none
    else none

/-- Model of `get_real_time_risk_free_rate(self)` (lines 113-152): FRED `DGS3MO`,
then Yahoo `^IRX`, then FRED `DGS1MO`; the winning percentage value is
divided by 100; exhaustion raises. -/
def getRealTimeRiskFreeRate (env : Env) : Except String ℚ :=
  match tryFredMethod env "DGS3MO" with
  | some v => .ok (v / 100)
  | none =>
    match tryIrxMethod env with
    | some v => .ok (v / 100)
    | none =>
      match tryFredMethod env "DGS1MO" with
      | some v => .ok (v / 100)
      | none => .error "CRITICAL: Unable to fetch real-time risk-free rate from any source"

/-- The series `market_data['Close'].pct_change().dropna()` applied to a fetched table
(the rows are already `dropna`-clean); a missing `Close` column raises. -/
def closeReturns (md : DataFrame) : Except String (List ℚ) :=
  match md.column "Close" with
  | none => .error "KeyError: Close"
  | some col => .ok (pctChange (col.filterMap id))

/-- Model of `get_real_time_market_data(self, period='1y')` (lines 154-184): S&P 500
primary (≥ 50 observations required), VTI backup, aggregated error when both
fail. -/
def getRealTimeMarketData (env : Env) (period : String) : Except String (List ℚ) :=
  let primary : Except String (List ℚ) :=
    match fetchFromYfinance env "^GSPC" period with
    | .error e => .error e
    | .ok marketData =>
      if marketData.len < 50 then
        .error ("Insufficient market data: " ++ toString marketData.len ++ " observations")
      else closeReturns marketData
  match primary with
  | .ok returns => .ok returns
  | .error e =>
    match (fetchFromYfinance env "VTI" period).bind closeReturns with
    | .ok returns => .ok returns
    | .error backupError =>
      .error ("CRITICAL: All market data sources failed. Primary: " ++ e ++
        ", Backup: " ++ backupError)

/-- Boolean substring test (Python's `'HEALTHY' in status`). -/
def strContainsAux (needle : List Char) : List Char → Bool
  | [] => needle.isEmpty
  | c :: t => needle.isPrefixOf (c :: t) || strContainsAux needle (t)

/-- Python `needle in hay` for strings. -/
def strContains (needle hay : String) : Bool := strContainsAux needle.toList hay.toList

/-- The `yfinance` entry of `health_report['data_sources']` (lines 357-364). -/
def yfinanceStatus (env : Env) : String :=
  match env.yfProbe with
  | .ok testData => if !testData.isEmpty then "HEALTHY ✅" else "NO DATA ❌"
  | .error e => "ERROR: " ++ e ++ " ❌"

/-- The `fred` entry of `health_report['data_sources']` (lines 366-377):
without a credential the probe is skipped and rendered `'NO API KEY ⚠️'`. -/
def fredStatus (env : Env) : String :=
  match env.fredKey with
  | some _ =>
    match fetchFromFred env "DGS3MO" 1 with
    | .ok (some _) => "HEALTHY ✅"
    | .ok none => "NO DATA ❌"
    | .error e => "ERROR: " ++ e ++ " ❌"
  | none => "NO API KEY ⚠️"

deriving instance DecidableEq for Except

/-- The structured report built by `system_health_check` (lines 341-431).
The risk-free-rate, market-data and sample probes are kept as tagged
success/failure values (the Python code renders them as strings with float
formatting); `overall_status` is computed from `data_sources` only. -/
structure HealthReport where
  dataSources : List (String × String)
  riskFreeRate : Except String ℚ
  marketData : Except String Nat
  sampleDataQuality : Except String (List (String × String))
  overallStatus : String
deriving DecidableEq

/-- Model of `system_health_check(self)` (lines 341-431): every sub-probe's failure
is caught and rendered inside the report; the overall status counts the
`data_sources` entries whose status string contains `'HEALTHY'`. -/
def systemHealthCheck (env : Env) : HealthReport :=
  let dataSources := [("yfinance", yfinanceStatus env), ("fred", fredStatus env)]
  let sample : Except String (List (String × String)) :=
    match fetchRealTimeStockData env (.inr ["AAPL", "MSFT", "GOOGL"]) "1mo" true with
    | .error e => .error ("ERROR: " ++ e ++ " ❌")
    | .ok sampleData =>
      .ok (["AAPL", "MSFT", "GOOGL"].map (fun ticker =>
        match sampleData.find? (fun p => p.1 == ticker) with
        | some p => (ticker, if p.2.len > 15 then "HEALTHY ✅" else "LIMITED DATA ⚠️")
        | none => (ticker, "FAILED ❌")))
  let healthySources := (dataSources.map Prod.snd).countP (fun s => strContains "HEALTHY" s)
  let totalSources := dataSources.length
  { dataSources := dataSources
    riskFreeRate := getRealTimeRiskFreeRate env
    marketData := (getRealTimeMarketData env "1mo").map List.length
    sampleDataQuality := sample
    overallStatus :=
      if healthySources = totalSources then "HEALTHY ✅"
      else if healthySources > 0 then "DEGRADED ⚠️"
      else "CRITICAL ❌" }

/-- The mutable attributes a `ProductionDataPipeline` instance carries
(`fred_api_key`, `alpha_vantage_key`, `cache`, `cache_duration`); used to
make the statelessness of the quality gate explicit. -/
structure PipelineState where
  fredApiKey : Option String
  alphaVantageKey : Option String
  cache : List ((String × String) × DataFrame)
  cacheDuration : Nat
deriving DecidableEq

/-- Model of `_validate_data_quality` as a state-passing method call: its body reads
no instance attribute and assigns none, so the instance state is returned
unchanged. -/
def validateDataQualitySt (s : PipelineState) (data : Option DataFrame)
    (now : Int) (ticker : String) : Verdict × PipelineState :=
  (validateDataQuality data now ticker, s)

/-! Concrete fixtures used to instantiate the theorems. -/

/-- A single-column table holding the given closing prices (timestamps 0). -/
def closeFrame (closes : List ℚ) : DataFrame :=
  { cols := ["Close"], rows := closes.map (fun c => ((0 : Int), [some c])) }

/-- A clean 20-row table of constant closes: passes every gate check. -/
def sampleFrame : DataFrame := closeFrame (List.replicate 20 1)

/-- A list of 100 closes with exactly 3 day-over-day moves above +50%
(each `1 → 2` jump; the `2 → 1` drop is exactly −50%, not counted). -/
def closes3 : List ℚ :=
  List.replicate 31 1 ++ [2] ++ List.replicate 31 1 ++ [2] ++
    List.replicate 32 1 ++ [2] ++ List.replicate 3 1

/-- A list of 100 closes with exactly 1 day-over-day move above +50%. -/
def closes1 : List ℚ :=
  List.replicate 50 1 ++ [2] ++ List.replicate 49 1

/-- A 20-row, 5-column table with exactly 10 missing cells out of 100
(10% missing, all in the `Volume` column); closes are all 1. -/
def boundaryMissingFrame : DataFrame :=
  { cols := ["Open", "High", "Low", "Close", "Volume"]
    rows :=
      (List.range 10).map (fun i => ((i : Int), [some 1, some 1, some 1, some 1, some 1])) ++
      (List.range 10).map (fun i => ((10 + i : Int), [some 1, some 1, some 1, some 1, none])) }

/-- Same shape with 11 of 100 cells missing (11% > 10%). -/
def excessiveMissingFrame : DataFrame :=
  { cols := ["Open", "High", "Low", "Close", "Volume"]
    rows :=
      (List.range 9).map (fun i => ((i : Int), [some 1, some 1, some 1, some 1, some 1])) ++
      [((9 : Int), [some 1, some 1, some 1, some 1, none])] ++
      (List.range 10).map (fun i => ((10 + i : Int), [some 1, some 1, some 1, some 1, none])) }

/-- One-row `^IRX` table whose last close is 4.5 (percentage points). -/
def irx45 : DataFrame := { cols := ["Close"], rows := [((0 : Int), [some (9/2)])] }

/-- Batch-fetch environment: `BBB`'s download fails, every other ticker
returns a clean 20-row table. -/
def envBatch : Env :=
  { fredKey := none, alphaVantageKey := none
    download := fun t _ _ => if t = "BBB" then .error "boom" else .ok sampleFrame
    irx := .error "down", fred := fun _ _ => .error "down"
    yfProbe := .error "down", now := 0 }

/-- Environment in which every external call fails with a transport error
that mentions neither a ticker nor an attempt count. -/
def allFailEnv : Env :=
  { fredKey := none, alphaVantageKey := none
    download := fun _ _ _ => .error "network down"
    irx := .error "network down", fred := fun _ _ => .error "network down"
    yfProbe := .error "network down", now := 0 }

/-- Environment whose downloads fail on attempts 0 and 1 and succeed on
attempt 2. -/
def retryEnv : Env :=
  { fredKey := none, alphaVantageKey := none
    download := fun _ _ k => if k = 2 then .ok sampleFrame else .error "transient"
    irx := .error "down", fred := fun _ _ => .error "down"
    yfProbe := .error "down", now := 0 }

/-- Environment with a FRED credential whose `DGS3MO` series reports a
negative observation (−1 percentage point). -/
def fredNegEnv : Env :=
  { fredKey := some "key", alphaVantageKey := none
    download := fun _ _ _ => .error "down"
    irx := .error "down", fred := fun _ _ => .ok [some (-1)]
    yfProbe := .error "down", now := 0 }

/-- Environment with a FRED credential whose `DGS3MO` series reports a
positive observation of 5 percentage points. -/
def fredOkEnv : Env :=
  { fredKey := some "key", alphaVantageKey := none
    download := fun _ _ _ => .error "down"
    irx := .error "down", fred := fun _ _ => .ok [some 5]
    yfProbe := .error "down", now := 0 }

/-- Environment with no FRED credential where Yahoo `^IRX` reports 4.5. -/
def irxEnv : Env := { envBatch with irx := .ok irx45 }

/-- Environment with no FRED credential and a healthy yfinance probe. -/
def noKeyEnv : Env :=
  { fredKey := none, alphaVantageKey := none
    download := fun _ _ _ => .error "down"
    irx := .error "down", fred := fun _ _ => .error "down"
    yfProbe := .ok sampleFrame, now := 0 }


/-! ## Theorems -/

/-- C7: for every non-empty table with fewer than 20 rows, the quality gate
rejects it with the insufficient-observations reason carrying the actual row
count, regardless of the values in any field. -/
theorem quality_gate_insufficient_observations (d : DataFrame) (now : Int) (t : String)
    (hne : d.isEmpty = false) (hlen : d.len < 20) :
    validateDataQuality (some d) now t = .reject (.insufficientObservations d.len) := by
  simp [validateDataQuality, hne, hlen]

/-- Witness for C7: a one-row table is rejected as insufficient. -/
theorem quality_gate_insufficient_observations_witness :
    validateDataQuality (some (closeFrame [1])) 0 "AAA" =
      .reject (.insufficientObservations 1) :=
  quality_gate_insufficient_observations (closeFrame [1]) 0 "AAA" (by decide) (by decide)

/-- C6: for a non-empty table with at least 20 rows, the gate rejects with
the excessive-missing-data reason (carrying the missing fraction) exactly
when the fraction of missing cells strictly exceeds 0.10; at exactly 10%
missing (prices otherwise valid) it accepts. -/
theorem quality_gate_missing_data_boundary (d : DataFrame) (now : Int) (t : String)
    (hne : d.isEmpty = false) (hlen : 20 ≤ d.len) :
    (d.missingFraction > 1/10 →
      validateDataQuality (some d) now t = .reject (.excessiveMissingData d.missingFraction)) ∧
    ((∃ f, validateDataQuality (some d) now t = .reject (.excessiveMissingData f)) →
      d.missingFraction > 1/10) ∧
    (d.missingFraction = 1/10 → closeChecksPass d = true →
      validateDataQuality (some d) now t = .accept (decide (daysOld d now > 10))) := by
  refine ⟨fun hgt => ?_, fun ⟨f, hf⟩ => ?_, fun heq hcp => ?_⟩
  · simp only [validateDataQuality]
    rw [if_neg (by simp [hne]), if_neg (Nat.not_lt.mpr hlen), if_pos hgt]
  · by_contra hlt
    rw [not_lt] at hlt
    simp only [validateDataQuality] at hf
    rw [if_neg (by simp [hne]), if_neg (Nat.not_lt.mpr hlen),
      if_neg (not_lt.mpr hlt)] at hf
    split at hf
    · split_ifs at hf <;> simp_all
    · simp at hf
  · have hnotgt : ¬(d.missingFraction > 1/10) := by simp [heq]
    simp only [validateDataQuality]
    rw [if_neg (by simp [hne]), if_neg (Nat.not_lt.mpr hlen), if_neg hnotgt]
    rcases hc : d.column "Close" with _ | col
    · simp [hc]
    · simp only [closeChecksPass, hc, Bool.and_eq_true, Bool.not_eq_true'] at hcp
      simp [hc, hcp.1.1, hcp.1.2, hcp.2]

/-- Witness for C6: a 20-row, 5-column table with exactly 10 of 100 cells
missing (10%) is accepted; with 11 of 100 cells missing it is rejected with
the excessive-missing-data reason carrying the fraction 11/100. -/
theorem quality_gate_missing_data_boundary_witness :
    validateDataQuality (some boundaryMissingFrame) 0 "AAA" = .accept false ∧
    validateDataQuality (some excessiveMissingFrame) 0 "AAA" =
      .reject (.excessiveMissingData (11/100)) := by
  constructor
  · have h := (quality_gate_missing_data_boundary boundaryMissingFrame 0 "AAA"
      (by decide) (by decide)).2.2 (by decide) (by decide)
    exact h.trans (by decide)
  · have h := (quality_gate_missing_data_boundary excessiveMissingFrame 0 "AAA"
      (by decide) (by decide)).1 (by decide)
    exact h.trans (by decide)

/-- C5 counterexample: a 10-row table with a closing-price column whose
closes are all positive has no extreme day-over-day change at all (fraction
0, not greater than 0.02), yet the gate rejects it (for insufficient
observations) — so, over all tables with positive closes, rejection is not
equivalent to the extreme-move fraction exceeding 0.02. -/
theorem quality_gate_extreme_moves_counterexample :
    ((closeFrame (List.replicate 10 1)).column "Close").isSome = true ∧
    (List.replicate 10 (1 : ℚ)).all (fun c => decide (0 < c)) = true ∧
    extremeMovesCount (List.replicate 10 1) = 0 ∧
    validateDataQuality (some (closeFrame (List.replicate 10 1))) 0 "AAA" =
      .reject (.insufficientObservations 10) := by
  refine ⟨by decide, by decide, by decide, by decide⟩

/-- C5 amended: among tables that pass the earlier gate checks (non-empty,
at least 20 rows, missing fraction at most 0.10) and whose closing prices
are present and all positive, the gate rejects — necessarily with the
suspicious-volatility reason — exactly when the number of day-over-day
changes whose absolute value exceeds 0.50 is greater than 0.02 times the
number of changes; otherwise it accepts. -/
theorem quality_gate_extreme_moves (d : DataFrame) (now : Int) (t : String)
    (col : List Cell)
    (hne : d.isEmpty = false) (hlen : 20 ≤ d.len)
    (hmiss : d.missingFraction ≤ 1/10)
    (hcol : d.column "Close" = some col)
    (hcl : (col.filterMap id).isEmpty = false)
    (hpos : ((col.filterMap id).any (fun c => decide (c ≤ 0))) = false) :
    (validateDataQuality (some d) now t = .reject .suspiciousVolatility ↔
      (extremeMovesCount (col.filterMap id) : ℚ) >
        ((pctChange (col.filterMap id)).length : ℚ) * (2/100)) ∧
    (¬((extremeMovesCount (col.filterMap id) : ℚ) >
        ((pctChange (col.filterMap id)).length : ℚ) * (2/100)) →
      validateDataQuality (some d) now t = .accept (decide (daysOld d now > 10))) := by
  have hred : validateDataQuality (some d) now t =
      (if suspicious (col.filterMap id) then .reject .suspiciousVolatility
       else .accept (decide (daysOld d now > 10))) := by
    simp only [validateDataQuality]
    rw [if_neg (by simp [hne]), if_neg (Nat.not_lt.mpr hlen),
      if_neg (not_lt.mpr hmiss)]
    simp [hcol, hcl, hpos]
  rw [hred]
  constructor
  · constructor
    · intro h
      by_contra hno
      rw [if_neg (by simp [suspicious, hno])] at h
      exact absurd h (by simp)
    · intro h
      rw [if_pos (by simp [suspicious, h])]
  · intro hno
    rw [if_neg (by simp [suspicious, hno])]

/-- Witness for C5 (amended): a 100-row series with exactly 3 of 99 changes
beyond ±50% is rejected as suspicious; with exactly 1 such change it is
accepted. -/
theorem quality_gate_extreme_moves_witness :
    validateDataQuality (some (closeFrame closes3)) 0 "AAA" =
      .reject .suspiciousVolatility ∧
    validateDataQuality (some (closeFrame closes1)) 0 "AAA" = .accept false := by
  constructor
  · exact (quality_gate_extreme_moves (closeFrame closes3) 0 "AAA"
      (closes3.map some) (by decide) (by decide) (by decide) (by decide)
      (by decide) (by decide)).1.mpr (by decide)
  · have h := (quality_gate_extreme_moves (closeFrame closes1) 0 "AAA"
      (closes1.map some) (by decide) (by decide) (by decide) (by decide)
      (by decide) (by decide)).2 (by decide)
    exact h.trans (by decide)

/-- Helper: the accept/reject boolean of the gate does not depend on the
clock (`datetime.now()` only feeds the staleness warning). -/
theorem validate_toBool_clock_free (d : Option DataFrame) (t : String) (n1 n2 : Int) :
    (validateDataQuality d n1 t).toBool = (validateDataQuality d n2 t).toBool := by
  cases d with
  | none => rfl
  | some df =>
    simp only [validateDataQuality]
    split_ifs <;> try rfl
    rcases hc : df.column "Close" with _ | col <;> simp only [hc]
    · rfl
    · split_ifs <;> rfl

/-- C9: the quality gate reads no mutable instance state and mutates none —
a call returns the instance state unchanged, a second call on the resulting
state with the same clock returns the identical verdict, and even with a
different clock the accept/reject boolean is identical. -/
theorem quality_gate_idempotent (s : PipelineState) (data : Option DataFrame)
    (t : String) (now1 now2 : Int) :
    (validateDataQualitySt s data now1 t).2 = s ∧
    (validateDataQualitySt ((validateDataQualitySt s data now1 t).2) data now1 t).1 =
      (validateDataQualitySt s data now1 t).1 ∧
    ((validateDataQualitySt ((validateDataQualitySt s data now1 t).2) data now2 t).1).toBool =
      ((validateDataQualitySt s data now1 t).1).toBool :=
  ⟨rfl, rfl, validate_toBool_clock_free data t now2 now1⟩

/-- Helper: inserting a fresh key into the `all_data` dict appends. -/
theorem dictInsert_fresh (m : List (String × DataFrame)) (k : String) (v : DataFrame)
    (h : ∀ p ∈ m, p.1 ≠ k) : dictInsert m k v = m ++ [(k, v)] := by
  rw [dictInsert, if_neg]
  simp only [List.any_eq_true, not_exists, not_and]
  intro p hp
  simpa using h p hp

/-- Helper: the batch loop over distinct tickers splits pointwise into the
accepted entries and the failed tickers — each ticker's outcome depends
only on that ticker's own fetch and validation. -/
theorem processTicker_foldl (env : Env) (period : String) (validate : Bool)
    (ts : List String) :
    ∀ (acc : List (String × DataFrame) × List String), ts.Nodup →
      (∀ t ∈ ts, ∀ p ∈ acc.1, p.1 ≠ t) →
      ts.foldl (processTicker env period validate) acc =
        (acc.1 ++ (ts.filter (tickerAccepts env period validate)).filterMap
            (fun t => acceptedEntry env period t),
         acc.2 ++ ts.filter (fun t => !tickerAccepts env period validate t)) := by
  induction ts with
  | nil => intro acc _ _; simp
  | cons t ts ih =>
    intro acc hnd hdisj
    have hndt : ts.Nodup := (List.nodup_cons.mp hnd).2
    have htnot : t ∉ ts := (List.nodup_cons.mp hnd).1
    rw [List.foldl_cons]
    rcases hfetch : fetchFromYfinance env t period with e | data
    · have hacc : tickerAccepts env period validate t = false := by
        simp [tickerAccepts, hfetch]
      have hstep : processTicker env period validate acc t = (acc.1, acc.2 ++ [t]) := by
        simp [processTicker, hfetch]
      rw [hstep, ih (acc.1, acc.2 ++ [t]) hndt
        (fun u hu p hp => hdisj u (List.mem_cons_of_mem t hu) p hp)]
      simp [hacc, List.append_assoc]
    · rcases hval : validate && !(validateDataQuality (some data) env.now t).toBool with _ | _
      · have hacc : tickerAccepts env period validate t = true := by
          simp only [tickerAccepts, hfetch, hval, Bool.not_false]
        have hstep : processTicker env period validate acc t =
            (acc.1 ++ [(t, data)], acc.2) := by
          simp only [processTicker, hfetch, hval, if_false, Bool.false_eq_true]
          rw [dictInsert_fresh acc.1 t data (fun p hp => hdisj t (List.mem_cons_self t ts) p hp)]
        have hdisj' : ∀ u ∈ ts, ∀ p ∈ acc.1 ++ [(t, data)], p.1 ≠ u := by
          intro u hu p hp
          rcases List.mem_append.mp hp with hp | hp
          · exact hdisj u (List.mem_cons_of_mem t hu) p hp
          · simp only [List.mem_singleton] at hp
            subst hp
            intro hctr
            exact htnot (by rw [show t = u from hctr]; exact hu)
        rw [hstep, ih (acc.1 ++ [(t, data)], acc.2) hndt hdisj']
        have hentry : acceptedEntry env period t = some (t, data) := by
          simp [acceptedEntry, hfetch]
        simp [hacc, hentry, List.append_assoc]
      · have hacc : tickerAccepts env period validate t = false := by
          simp only [tickerAccepts, hfetch, hval, Bool.not_true]
        have hstep : processTicker env period validate acc t = (acc.1, acc.2 ++ [t]) := by
          simp [processTicker, hfetch, hval]
        rw [hstep, ih (acc.1, acc.2 ++ [t]) hndt
          (fun u hu p hp => hdisj u (List.mem_cons_of_mem t hu) p hp)]
        simp [hacc, List.append_assoc]

/-- Helper: over a list of accepted tickers, every `acceptedEntry` is
`some`, so the mapping is empty exactly when the accepted list is. -/
theorem filterMap_acceptedEntry_isEmpty (env : Env) (period : String) (validate : Bool)
    (l : List String) (h : ∀ t ∈ l, tickerAccepts env period validate t = true) :
    (l.filterMap (fun t => acceptedEntry env period t)).isEmpty = l.isEmpty := by
  induction l with
  | nil => rfl
  | cons t ts _ =>
    have ht := h t (List.mem_cons_self t ts)
    rcases hfetch : fetchFromYfinance env t period with e | data
    · rw [tickerAccepts, hfetch] at ht
      exact absurd ht (by simp)
    · have hentry : acceptedEntry env period t = some (t, data) := by
        simp [acceptedEntry, hfetch]
      simp [hentry]

/-- C1 counterexample: for input `["AAA","BBB","CCC"]` with BBB failing, the
call succeeds, but its return value is the two-entry mapping alone — the
function returns only `all_data` (line 63); the failed identifiers `["BBB"]`
are only accumulated and reported in the warning print (lines 60-61), not
returned to the caller. -/
theorem fetch_many_return_value_counterexample :
    fetchRealTimeStockData envBatch (.inr ["AAA", "BBB", "CCC"]) "1y" true =
      .ok [("AAA", sampleFrame.dropna), ("CCC", sampleFrame.dropna)] ∧
    failedTickers envBatch (.inr ["AAA", "BBB", "CCC"]) "1y" true = ["BBB"] :=
  ⟨by decide, by decide⟩

/-- C1 amended: each identifier is processed independently — one
identifier's fetch or validation failure never aborts the batch; when the
accepted set is empty the call raises the "no data could be fetched" error;
when it is non-empty the call succeeds, returning the accepted
identifier-to-table mapping, while the sequence of failed identifiers is
recorded and reported in a warning print rather than returned. -/
theorem fetch_many_partial_success (env : Env) (period : String) (validate : Bool)
    (ts : List String) (hnd : ts.Nodup) :
    fetchRealTimeStockData env (.inr ts) period validate =
      (if (ts.filter (tickerAccepts env period validate)).isEmpty then
        .error "CRITICAL: No data could be fetched for any ticker"
      else
        .ok ((ts.filter (tickerAccepts env period validate)).filterMap
          (fun t => acceptedEntry env period t))) ∧
    failedTickers env (.inr ts) period validate =
      ts.filter (fun t => !tickerAccepts env period validate t) := by
  have hloop : batchLoopState env (.inr ts) period validate =
      ((ts.filter (tickerAccepts env period validate)).filterMap
          (fun t => acceptedEntry env period t),
        ts.filter (fun t => !tickerAccepts env period validate t)) := by
    rw [batchLoopState, show normalizeTickers (.inr ts) = ts from rfl,
      processTicker_foldl env period validate ts ([], []) hnd (by simp)]
    simp
  constructor
  · simp only [fetchRealTimeStockData, hloop]
    rw [filterMap_acceptedEntry_isEmpty env period validate _
      (fun t ht => (List.mem_filter.mp ht).2)]
  · simp only [failedTickers, hloop]

/-- Witness for C1 (amended): applying the theorem to the concrete batch
`["AAA","BBB","CCC"]` with BBB failing gives a two-entry mapping and the
reported failed list `["BBB"]`. -/
theorem fetch_many_partial_success_witness :
    (["AAA", "BBB", "CCC"].filter (tickerAccepts envBatch "1y" true)).isEmpty = false ∧
    fetchRealTimeStockData envBatch (.inr ["AAA", "BBB", "CCC"]) "1y" true =
      .ok ([("AAA", sampleFrame.dropna), ("CCC", sampleFrame.dropna)]) ∧
    ([("AAA", sampleFrame.dropna), ("CCC", sampleFrame.dropna)] :
      List (String × DataFrame)).length = 2 ∧
    failedTickers envBatch (.inr ["AAA", "BBB", "CCC"]) "1y" true = ["BBB"] := by
  have h := fetch_many_partial_success envBatch "1y" true ["AAA", "BBB", "CCC"] (by decide)
  exact ⟨by decide, h.1.trans (by decide), by decide, h.2.trans (by decide)⟩

/-- C10: a bare string identifier is normalised to a one-element list — the
call behaves exactly as with `[s]`, in both its return value and its
reported failed list — and on success the returned mapping is keyed by `s`. -/
theorem single_string_normalisation (env : Env) (period : String) (validate : Bool)
    (s : String) :
    fetchRealTimeStockData env (.inl s) period validate =
      fetchRealTimeStockData env (.inr [s]) period validate ∧
    failedTickers env (.inl s) period validate =
      failedTickers env (.inr [s]) period validate ∧
    (∀ m, fetchRealTimeStockData env (.inl s) period validate = .ok m →
      m.map Prod.fst = [s]) := by
  refine ⟨rfl, rfl, fun m h => ?_⟩
  simp only [fetchRealTimeStockData, batchLoopState, normalizeTickers, List.foldl] at h
  rcases hf : fetchFromYfinance env s period with e | data
  · simp [processTicker, hf] at h
  · simp only [processTicker, hf] at h
    by_cases hv : (validate && !(validateDataQuality (some data) env.now s).toBool) = true
    · rw [if_pos hv] at h
      simp at h
    · rw [if_neg hv] at h
      have hd : dictInsert ([] : List (String × DataFrame)) s data = [(s, data)] := by
        simp [dictInsert]
      rw [hd] at h
      simp only [List.isEmpty_cons, Bool.false_eq_true, if_false] at h
      cases h
      simp

/-- Witness for C10: on a successful single-string call, the mapping is
keyed by exactly that string. -/
theorem single_string_normalisation_witness :
    ([("AAA", sampleFrame.dropna)] : List (String × DataFrame)).map Prod.fst = ["AAA"] :=
  (single_string_normalisation envBatch "1y" true "AAA").2.2
    [("AAA", sampleFrame.dropna)] (by decide)

/-- C2: the risk-free-rate resolver tries FRED `DGS3MO`, Yahoo `^IRX`,
then FRED `DGS1MO`, in that order, stopping at the first strategy yielding
a usable value and dividing the percentage by 100.  First conjunct: with a
credential and a usable `DGS3MO` observation `v > 0`, the result is
`v / 100` whatever the other strategies would return.  Second conjunct: when
the first strategy fails for lack of a credential and `^IRX` reports 4.5,
the result is 0.045 for every behaviour of the `DGS1MO` strategy (so the
third strategy is never consulted). -/
theorem risk_free_rate_fallback_order :
    (∀ (key : String) (ak : Option String)
        (dl : String → Nat → Nat → Except String DataFrame)
        (irx : Except String DataFrame)
        (fredF : String → Nat → Except String (List Cell))
        (yp : Except String DataFrame) (now : Int) (v : ℚ),
      fredF "DGS3MO" 10 = .ok [some v] → 0 < v →
      getRealTimeRiskFreeRate ⟨some key, ak, dl, irx, fredF, yp, now⟩ = .ok (v / 100)) ∧
    (∀ (ak : Option String) (dl : String → Nat → Nat → Except String DataFrame)
        (fredF : String → Nat → Except String (List Cell))
        (yp : Except String DataFrame) (now : Int),
      getRealTimeRiskFreeRate ⟨none, ak, dl, .ok irx45, fredF, yp, now⟩ = .ok (9/200)) := by
  constructor
  · intro key ak dl irx fredF yp now v hf _hpos
    simp [getRealTimeRiskFreeRate, tryFredMethod, fetchFromFred, hf]
  · intro ak dl fredF yp now
    simp only [getRealTimeRiskFreeRate, tryFredMethod, tryIrxMethod, irx45,
      DataFrame.column, DataFrame.isEmpty, Option.isSome_none, Bool.false_eq_true,
      if_false]
    norm_num [List.findIdx?]

/-- Witness for C2: a credentialed FRED environment reporting 5% resolves to
0.05; the no-credential environment with `^IRX` at 4.5 resolves to 0.045. -/
theorem risk_free_rate_fallback_order_witness :
    getRealTimeRiskFreeRate fredOkEnv = .ok (5/100) ∧
    getRealTimeRiskFreeRate irxEnv = .ok (9/200) :=
  ⟨risk_free_rate_fallback_order.1 "key" none (fun _ _ _ => .error "down")
      (.error "down") (fun _ _ => .ok [some 5]) (.error "down") 0 5 rfl (by norm_num),
    risk_free_rate_fallback_order.2 none (fun t _ _ =>
      if t = "BBB" then .error "boom" else .ok sampleFrame)
      (fun _ _ => .error "down") (.error "down") 0⟩

/-- Helper: the `^IRX` strategy only yields values it checked to be
strictly positive (line 135). -/
theorem tryIrxMethod_pos (env : Env) (v : ℚ) (h : tryIrxMethod env = some v) :
    0 < v := by
  simp only [tryIrxMethod] at h
  repeat' split at h
  all_goals simp_all

/-- C4 counterexample: with a credential and a FRED `DGS3MO` series whose
most recent observation is −1 (non-null but negative), the resolver returns
−0.01 — a returned fraction that is not strictly positive, because the FRED
paths never check NaN-ness or positivity (only the `^IRX` path does,
line 135). -/
theorem risk_free_rate_usability_counterexample :
    getRealTimeRiskFreeRate fredNegEnv = .ok (-(1/100)) ∧
    ¬(0 < (-(1/100) : ℚ)) :=
  ⟨by decide, by norm_num⟩

/-- C4 amended: whenever the resolver returns a value, the winning strategy
is the first whose value was taken, and the returned fraction is the
winning value divided by 100; it is guaranteed strictly positive only when
the `^IRX` strategy won — a FRED strategy wins with any non-null
observation, including zero or negative ones. -/
theorem risk_free_rate_winning_value (env : Env) (r : ℚ)
    (h : getRealTimeRiskFreeRate env = .ok r) :
    tryFredMethod env "DGS3MO" = some (100 * r) ∨
    (tryFredMethod env "DGS3MO" = none ∧ tryIrxMethod env = some (100 * r) ∧ 0 < r) ∨
    (tryFredMethod env "DGS3MO" = none ∧ tryIrxMethod env = none ∧
      tryFredMethod env "DGS1MO" = some (100 * r)) := by
  have h100 : ∀ v : ℚ, v / 100 = r → 100 * r = v := by
    intro v hv
    rw [← hv]
    field_simp
  simp only [getRealTimeRiskFreeRate] at h
  rcases h1 : tryFredMethod env "DGS3MO" with _ | v
  · rw [h1] at h
    rcases h2 : tryIrxMethod env with _ | v
    · rw [h2] at h
      rcases h3 : tryFredMethod env "DGS1MO" with _ | v
      · rw [h3] at h
        exact absurd h (by simp)
      · rw [h3] at h
        simp only [Except.ok.injEq] at h
        right; right
        refine ⟨rfl, rfl, ?_⟩
        rw [h100 v h]
    · rw [h2] at h
      simp only [Except.ok.injEq] at h
      right; left
      have hv := tryIrxMethod_pos env v h2
      refine ⟨rfl, ?_, ?_⟩
      · rw [h100 v h]
      · rw [← h]
        exact div_pos hv (by norm_num)
  · rw [h1] at h
    simp only [Except.ok.injEq] at h
    left
    rw [h100 v h]

/-- Witness for C4 (amended): applied to the negative-FRED environment, the
characterization names FRED `DGS3MO` as the winner with observation −1. -/
theorem risk_free_rate_winning_value_witness :
    tryFredMethod fredNegEnv "DGS3MO" = some (100 * -(1/100)) ∨
    (tryFredMethod fredNegEnv "DGS3MO" = none ∧
      tryIrxMethod fredNegEnv = some (100 * -(1/100)) ∧ 0 < (-(1/100) : ℚ)) ∨
    (tryFredMethod fredNegEnv "DGS3MO" = none ∧ tryIrxMethod fredNegEnv = none ∧
      tryFredMethod fredNegEnv "DGS1MO" = some (100 * -(1/100))) :=
  risk_free_rate_winning_value fredNegEnv (-(1/100)) (by decide)

/-- Helper: an attempt's outcome depends on the environment only through
the download it performs. -/
theorem attemptOutcome_congr (env env' : Env) (ticker : String) (days k : Nat)
    (h : env.download ticker days k = env'.download ticker days k) :
    attemptOutcome env ticker days k = attemptOutcome env' ticker days k := by
  rw [attemptOutcome, attemptOutcome, h]

/-- C3 counterexample: when all three attempts fail with a transport error
`"network down"`, the fetch propagates that error verbatim — identically
for different identifiers, and containing neither the identifier nor the
attempt count — so the propagated failure is not tagged with the identifier
and the number of attempts. -/
theorem retry_tagging_counterexample :
    fetchFromYfinance allFailEnv "AAPL" "1y" = .error "network down" ∧
    fetchFromYfinance allFailEnv "MSFT" "1y" = .error "network down" ∧
    strContains "AAPL" "network down" = false ∧
    strContains "MSFT" "network down" = false ∧
    strContains "3" "network down" = false :=
  ⟨by decide, by decide, by decide, by decide, by decide⟩

/-- C3 amended: the fetcher makes at most 3 total attempts (its result is
determined by the outcomes of attempts 0, 1 and 2 alone); a source failing
on the first two attempts and succeeding on the third makes the fetch
return the successful (cleaned) table; a source failing on all three
attempts makes the fetch propagate the last failure unchanged — without
tagging it with the identifier or the attempt count. -/
theorem retry_semantics :
    (∀ (env env' : Env) (ticker period : String),
      env.download ticker (periodDays period) 0 = env'.download ticker (periodDays period) 0 →
      env.download ticker (periodDays period) 1 = env'.download ticker (periodDays period) 1 →
      env.download ticker (periodDays period) 2 = env'.download ticker (periodDays period) 2 →
      fetchFromYfinance env ticker period = fetchFromYfinance env' ticker period) ∧
    (∀ (env : Env) (ticker period : String) (e0 e1 : String) (d : DataFrame),
      attemptOutcome env ticker (periodDays period) 0 = .error e0 →
      attemptOutcome env ticker (periodDays period) 1 = .error e1 →
      attemptOutcome env ticker (periodDays period) 2 = .ok d →
      fetchFromYfinance env ticker period = .ok d) ∧
    (∀ (env : Env) (ticker period : String) (e0 e1 e2 : String),
      attemptOutcome env ticker (periodDays period) 0 = .error e0 →
      attemptOutcome env ticker (periodDays period) 1 = .error e1 →
      attemptOutcome env ticker (periodDays period) 2 = .error e2 →
      fetchFromYfinance env ticker period = .error e2) := by
  refine ⟨fun env env' ticker period h0 h1 h2 => ?_, fun env ticker period e0 e1 d h0 h1 h2 => ?_,
    fun env ticker period e0 e1 e2 h0 h1 h2 => ?_⟩
  · rw [fetchFromYfinance, fetchFromYfinance,
      attemptOutcome_congr env env' ticker (periodDays period) 0 h0,
      attemptOutcome_congr env env' ticker (periodDays period) 1 h1,
      attemptOutcome_congr env env' ticker (periodDays period) 2 h2]
  · rw [fetchFromYfinance, h0, h1, h2]
  · rw [fetchFromYfinance, h0, h1, h2]

/-- Witness for C3 (amended): with transient failures on attempts 0 and 1
and a clean table on attempt 2, the fetch returns the cleaned table; with
all attempts failing, the fetch propagates the last transport error. -/
theorem retry_semantics_witness :
    fetchFromYfinance retryEnv "AAPL" "1y" = .ok sampleFrame.dropna ∧
    fetchFromYfinance allFailEnv "GOOG" "1y" = .error "network down" :=
  ⟨retry_semantics.2.1 retryEnv "AAPL" "1y" "transient" "transient"
      sampleFrame.dropna (by decide) (by decide) (by decide),
    retry_semantics.2.2 allFailEnv "GOOG" "1y" "network down" "network down"
      "network down" (by decide) (by decide) (by decide)⟩

/-- C8 counterexample: with no economic-data credential and a healthy
yfinance probe, the fred entry is rendered `'NO API KEY ⚠️'` (not an error),
but it still counts against the healthy-source tally, so the overall status
is `DEGRADED` — the absent credential by itself prevents an overall
`HEALTHY` status, contradicting the claim. -/
theorem health_check_no_credential_counterexample :
    noKeyEnv.fredKey = none ∧
    (systemHealthCheck noKeyEnv).dataSources =
      [("yfinance", "HEALTHY ✅"), ("fred", "NO API KEY ⚠️")] ∧
    (systemHealthCheck noKeyEnv).overallStatus = "DEGRADED ⚠️" ∧
    (systemHealthCheck noKeyEnv).overallStatus ≠ "HEALTHY ✅" :=
  ⟨rfl, by decide, by decide, by decide⟩

/-- C8 amended: the health check is a total function into a report (every
sub-probe failure is rendered as a value inside it); its overall status is
`HEALTHY` iff every `data_sources` entry's status contains `'HEALTHY'`,
`CRITICAL` iff none does, and `DEGRADED` iff some but not all do; a missing
credential renders the fred entry as `'NO API KEY ⚠️'` — which is not an
error string, but does count as a non-healthy source, so it caps the overall
status at `DEGRADED`. -/
theorem health_check_status (env : Env) :
    (systemHealthCheck env).dataSources =
      [("yfinance", yfinanceStatus env), ("fred", fredStatus env)] ∧
    ((systemHealthCheck env).overallStatus = "HEALTHY ✅" ↔
      ((systemHealthCheck env).dataSources.map Prod.snd).all
        (fun s => strContains "HEALTHY" s) = true) ∧
    ((systemHealthCheck env).overallStatus = "CRITICAL ❌" ↔
      ((systemHealthCheck env).dataSources.map Prod.snd).all
        (fun s => !strContains "HEALTHY" s) = true) ∧
    ((systemHealthCheck env).overallStatus = "DEGRADED ⚠️" ↔
      (((systemHealthCheck env).dataSources.map Prod.snd).any
          (fun s => strContains "HEALTHY" s) = true ∧
        ((systemHealthCheck env).dataSources.map Prod.snd).all
          (fun s => strContains "HEALTHY" s) = false)) ∧
    (env.fredKey = none → fredStatus env = "NO API KEY ⚠️") := by
  refine ⟨rfl, ?_, ?_, ?_, fun h => by simp [fredStatus, h]⟩ <;>
    rcases hb1 : strContains "HEALTHY" (yfinanceStatus env) with _ | _ <;>
    rcases hb2 : strContains "HEALTHY" (fredStatus env) with _ | _ <;>
    simp only [systemHealthCheck, List.map_cons, List.map_nil, List.all_cons,
      List.all_nil, List.any_cons, List.any_nil, List.countP_cons, List.countP_nil,
      hb1, hb2] <;>
    norm_num <;> decide

/-- Witness for C8 (amended): in the credential-less environment the fred
entry reads `'NO API KEY ⚠️'`. -/
theorem health_check_status_witness : fredStatus noKeyEnv = "NO API KEY ⚠️" :=
  (health_check_status noKeyEnv).2.2.2.2 rfl

end DataPipeline
